import Mathlib

/-!
Verification of the Feishu (Lark) notifier integration of the alerting
repository.  The Go sources are shallowly embedded: network calls, file
handles and the templating engine become explicit oracle inputs, fallible
operations return `Except`, and the JSON documents the builders produce are
represented structurally.  The repository contains several variants of the
notifier (a raw-HTTP "post"-format variant, a raw-HTTP "card"-format
variant, and an SDK-based "card"-format variant); each embedded definition
names the variant it is taken from.
-/

namespace Feishu

/-- Opaque error value (Go `error`). -/
structure Err where
  msg : String
deriving DecidableEq

/-! ## Notifier orchestration (`Notify`, src/receivers/feishu/feishu.go 173-206)

`Notify` renders templates, calls `buildBody`, and on success hands the body
to the webhook sender.  The embedding takes the outcome of `buildBody` and
the sender as oracles and additionally records the list of sender
invocations, so that "the sender was never invoked" is expressible. -/

/-- One observable outbound effect of `Notify`: a webhook-sender call with
the given body. -/
inductive NotifyEffect where
  | callSender (body : String)
deriving DecidableEq

/-- Embeds `Notifier.Notify` (feishu.go 173-206): if `buildBody` fails the
error is returned with `false` and the sender is not called; otherwise the
body is handed to the sender, whose error (if any) is returned with
`false`; on success the result is `(true, nil)`.  The returned effect list
records every sender invocation. -/
def Notify (buildResult : Except Err String) (send : String → Except Err Unit) :
    (Bool × Option Err) × List NotifyEffect :=
  match buildResult with
  | Except.error e => ((false, some e), [])
  | Except.ok body =>
    match send body with
    | Except.error e => ((false, some e), [NotifyEffect.callSender body])
    | Except.ok _ => ((true, none), [NotifyEffect.callSender body])

/-! ## Tenant-token cache (`getTenantAccessToken`, feishu.go 128-171)

The cache is the single-entry `gcache` store: an optional pair of token and
absolute expiry instant.  `gcache.Get` yields the value only while
`now < expiry`.  The auth endpoint is an oracle returning either a transport
or parse error, or the parsed `{tenant_access_token, expire}` response.  The
embedding returns the token (or error), the new cache state, and the number
of auth-endpoint calls performed. -/

/-- Parsed auth-endpoint response (Go struct `feishuTenant`). -/
structure FeishuTenant where
  code : Int
  expire : Int
  msg : String
  accessToken : String
deriving DecidableEq

/-- Single-entry token cache state: `none`, or a token with its absolute
expiry instant. -/
structure CacheState where
  entry : Option (String × Int)
deriving DecidableEq

/-- `gcache` lookup: the cached value is returned only while unexpired
(`now < expiry`). -/
def cacheGet (st : CacheState) (now : Int) : Option String :=
  match st.entry with
  | some (tok, exp) => if now < exp then some tok else none
  | none => none

/-- Environment of one `getTenantAccessToken` call: the current instant and
the auth endpoint's behaviour (`Except.error` covers transport, read and
unmarshal failures). -/
structure TokenEnv where
  now : Int
  authResp : Except Err FeishuTenant

/-- Embeds `Notifier.getTenantAccessToken` (feishu.go 128-171).  A cache hit
is returned with no network call.  On a miss the auth endpoint is called
once; on success the token is stored with expiry `now + expire` seconds and
returned, on failure the error propagates and the cache is unchanged.  The
third component counts auth-endpoint calls. -/
def getTenantAccessToken (env : TokenEnv) (st : CacheState) :
    Except Err String × CacheState × Nat :=
  match cacheGet st env.now with
  | some tok => (Except.ok tok, st, 0)
  | none =>
    match env.authResp with
    | Except.error e => (Except.error e, st, 1)
    | Except.ok t =>
      (Except.ok t.accessToken, ⟨some (t.accessToken, env.now + t.expire)⟩, 1)

/-! ## Config loader (`NewConfig`, src/unnamed/part_000)

Two variants exist: one taking a decrypt function (lines 25-54) and one
without (lines 76-101).  JSON unmarshalling of the raw settings is modelled
as an `Except`-valued input (its failure covers malformed JSON).  The
decrypt function has the Go `DecryptFunc` shape `(key, fallback) → value`. -/

/-- Parsed settings / validated configuration (Go struct `Config`). -/
structure Config where
  url : String
  appID : String
  appSecret : String
  msgType : String
  title : String
  message : String
  mentionUsers : List String
deriving DecidableEq

/-- Go constant `defaultFeishuMsgType`. -/
def defaultFeishuMsgType : String := "post"

/-- Stands in for `templates.DefaultMessageTitleEmbed` (external constant). -/
def defaultMessageTitleEmbed : String :=
  "\x7b\x7b template \x22default.title\x22 . \x7d\x7d"

/-- Stands in for `templates.DefaultMessageEmbed` (external constant). -/
def defaultMessageEmbed : String :=
  "\x7b\x7b template \x22default.message\x22 . \x7d\x7d"

/-- Embeds `NewConfig(jsonData, decryptFn)` (part_000 lines 25-54).  The
decrypted app ID and app secret are used only for the emptiness validation;
the returned `Config` keeps the raw fields from the settings, with the
documented defaults filled in for title, message and message type. -/
def NewConfig (parsed : Except Err Config) (decryptFn : String → String → String) :
    Except Err Config :=
  match parsed with
  | Except.error e => Except.error ⟨"failed to unmarshal settings: " ++ e.msg⟩
  | Except.ok settings =>
    let url := settings.url
    let appID := decryptFn ("appId") settings.appID
    let appSecret := decryptFn ("appSecret") settings.appSecret
    if url = "" ∨ appID = "" ∨ appSecret = "" then
      Except.error ⟨"could not find Bot AppID or AppSecret in settings"⟩
    else
      Except.ok
        { settings with
          title := if settings.title = "" then defaultMessageTitleEmbed else settings.title
          message := if settings.message = "" then defaultMessageEmbed else settings.message
          msgType := if settings.msgType = "" then defaultFeishuMsgType else settings.msgType }

/-- Embeds the decrypt-free `NewConfig(jsonData)` variant (part_000 lines
76-101): the raw fields themselves are validated. -/
def NewConfigPlain (parsed : Except Err Config) : Except Err Config :=
  match parsed with
  | Except.error e => Except.error ⟨"failed to unmarshal settings: " ++ e.msg⟩
  | Except.ok settings =>
    if settings.url = "" ∨ settings.appID = "" ∨ settings.appSecret = "" then
      Except.error ⟨"could not find Bot AppID or AppSecret in settings"⟩
    else
      Except.ok
        { settings with
          title := if settings.title = "" then defaultMessageTitleEmbed else settings.title
          message := if settings.message = "" then defaultMessageEmbed else settings.message }

/-! ## `SendResolved` (all notifier variants)

Each variant derives the predicate from the base notifier's
"disable resolve message" flag, which is modelled as the argument. -/

/-- Embeds `SendResolved` of the raw-HTTP post-format variant
(feishu.go 208-210): `!fs.GetDisableResolveMessage()`. -/
def SendResolved (disableResolveMessage : Bool) : Bool :=
  !disableResolveMessage

/-- Embeds `SendResolved` of the first part_001 variant (part_001 lines
202-204): the source reads `!!fs.GetDisableResolveMessage()` — a double
negation. -/
def SendResolvedDoubleNeg (disableResolveMessage : Bool) : Bool :=
  !(!disableResolveMessage)

/-- Embeds `SendResolved` of the raw-HTTP card-format variant (part_001
lines 500-502): `!fs.GetDisableResolveMessage()`. -/
def SendResolvedCard (disableResolveMessage : Bool) : Bool :=
  !disableResolveMessage

/-- Embeds `SendResolved` of the SDK variant (part_002 lines 161-163):
`!fs.GetDisableResolveMessage()`. -/
def SendResolvedSDK (disableResolveMessage : Bool) : Bool :=
  !disableResolveMessage

/-! ## Image uploader (`uploadImage`, feishu.go 60-118)

The local steps (token acquisition, `os.Open`, multipart assembly, the HTTP
round trip with its body read) are oracles.  The response body's
`json.Unmarshal` outcome is modelled as `Option FeishuImage`, `none` being a
malformed (non-JSON-parseable) body.  The HTTP status code is carried in the
response so that claims about it can be stated; the source never reads
`resp.StatusCode`. -/

/-- Parsed image-endpoint response (Go struct `feishuImage`); `imageKey` is
the nested `data.image_key`. -/
structure FeishuImage where
  code : Int
  msg : String
  imageKey : String
deriving DecidableEq

/-- The image-endpoint HTTP response: status code and the unmarshal outcome
of its body (`none` = malformed body). -/
structure ImageResponse where
  status : Nat
  parsed : Option FeishuImage
deriving DecidableEq

/-- Environment of one `uploadImage` call. -/
structure UploadEnv where
  token : Except Err String
  fileOpen : Except Err Unit
  multipart : Except Err Unit
  response : Except Err ImageResponse

/-- Embeds `Notifier.uploadImage` (feishu.go 60-118): each preparatory step
propagates its error; the response body is unmarshalled and the contained
image key returned.  The status code of the response is never consulted. -/
def uploadImage (env : UploadEnv) : Except Err String :=
  match env.token with
  | Except.error e => Except.error e
  | Except.ok _ =>
    match env.fileOpen with
    | Except.error e => Except.error e
    | Except.ok _ =>
      match env.multipart with
      | Except.error e => Except.error e
      | Except.ok _ =>
        match env.response with
        | Except.error e => Except.error e
        | Except.ok resp =>
          match resp.parsed with
          | none => Except.error ⟨"json unmarshal failed"⟩
          | some info => Except.ok info.imageKey

/-! ## Post-format payload builder (`buildBody`, feishu.go 239-307)

The stored-image iteration (`images.WithStoredImages`) walks the alert
batch's images; the per-image `uploadImage` outcome is an oracle keyed by
the image path.  A failed upload is logged and skipped; a successful one
appends an `img` block.  The assembled document is kept structurally: the
serialized JSON is `{msg_type:"post", content:{post:{zh_cn:{title,
content}}}}` where `content` is a list of rows of blocks. -/

/-- A stored image of an alert (Go `images.Image`, relevant fields). -/
structure Image where
  path : String
  url : String
deriving DecidableEq

/-- An alert of the batch, as the image iteration sees it: an opaque key
the image provider resolves to that alert's stored images. -/
structure Alert where
  name : String
deriving DecidableEq

/-- One block of a post-format row: text (`feishuTextContent`), link
(`feishuLinkContent`) or image (`feishuImageContent`). -/
inductive PostBlock where
  | text (tag text : String) (unescape : Bool)
  | link (tag text href : String)
  | img (tag imageKey : String)
deriving DecidableEq

/-- The post-format document, structurally: `msgType` is the top-level
`msg_type`, and `title`/`content` sit under `content.post.zh_cn`. -/
structure PostPayload where
  msgType : String
  title : String
  content : List (List PostBlock)
deriving DecidableEq

/-- Environment of one post-format `buildBody` call: per-path upload
outcome, the image provider (`images.Provider`) resolving an alert to its
stored images, and the value of
`receivers.JoinURLPath(ExternalURL, "/alerting/list")`. -/
structure PostEnv where
  upload : String → Except Err String
  imagesOf : Alert → List Image
  ruleURL : String

/-- The image blocks the callback of the post-format `buildBody`
(feishu.go 241-254) collects when `images.WithStoredImages` runs it over
the stored images of the alerts passed variadically to that helper: one
`img` block per successfully uploaded image, in iteration order; failures
are skipped.  The call at feishu.go 241 passes no alerts at all (contrast
part_002 line 276, which ends `}, alerts...)`), so there the iteration runs
over the empty batch. -/
def imageContentsOf (env : PostEnv) (alerts : List Alert) : List PostBlock :=
  (alerts.flatMap env.imagesOf).filterMap (fun img =>
    match env.upload img.path with
    | Except.error _ => none
    | Except.ok key => some (PostBlock.img ("img") key))

/-- Embeds the post-format `Notifier.buildBody` (feishu.go 239-307): the
`WithStoredImages` iteration is invoked with no alert batch (feishu.go 241;
the function does not even receive the alerts), then rows are appended in
order — text row (if the message is non-empty), image row (if any upload
succeeded), link row (if the rule URL is non-empty) — and the document is
assembled with `msg_type` "post".  Serialization of these fixed-shape
values cannot fail, so the result is always `Except.ok`. -/
def buildBody (env : PostEnv) (title msg : String) : Except Err PostPayload :=
  let imageContents := imageContentsOf env []
  let contents1 : List (List PostBlock) :=
    if msg.length > 0 then [[PostBlock.text ("text") msg false]] else []
  let contents2 :=
    if imageContents.length > 0 then contents1 ++ [imageContents] else contents1
  let contents3 :=
    if env.ruleURL.length > 0 then
      contents2 ++ [[PostBlock.link ("a") ("Alerting list") env.ruleURL]]
    else contents2
  Except.ok { msgType := "post", title := title, content := contents3 }

/-! ## SDK variant: mention resolver and card-format builder (part_002)

`getUserIDs` short-circuits on the literal "all"; otherwise it issues one
batched SDK lookup, modelled as an oracle.  The card-format `buildBody`
assembles a header styled by the batch status, a flat element list, and an
optional divider before mentions. -/

/-- Status of a single alert (`model.AlertStatus`: firing or resolved). -/
inductive AlertStatus where
  | firing
  | resolved
deriving DecidableEq

/-- Combined status of an alert batch (`types.Alerts(...).Status()`): firing
as soon as one alert still fires, resolved otherwise. -/
def batchStatus (alerts : List AlertStatus) : AlertStatus :=
  if alerts.any (fun a => a = AlertStatus.firing) then AlertStatus.firing
  else AlertStatus.resolved

/-- Environment of the SDK notifier: per-path upload outcome, stored images
of the batch, the batched user-lookup oracle (`Contact.User.BatchGetId`
round trip, mapped to the user-ID list), the configured mention list and
message type. -/
structure SDKEnv where
  upload : String → Except Err String
  storedImages : List Image
  lookupUserIDs : List String → Except Err (List String)
  mentionUsers : List String
  msgType : String

/-- Embeds `Notifier.getUserIDs` (part_002 lines 98-133): if any input
identifier is the literal "all" the single-element list ["all"] is returned
with no lookup; otherwise one batched lookup is issued and its user IDs
returned in response order.  The second component counts lookup calls. -/
def getUserIDs (env : SDKEnv) (emails : List String) :
    Except Err (List String) × Nat :=
  if emails.contains ("all") then (Except.ok ["all"], 0)
  else
    match env.lookupUserIDs emails with
    | Except.error e => (Except.error e, 1)
    | Except.ok users => (Except.ok users, 1)

/-- Card header icon (Go struct `feishuHeaderIcon`). -/
structure FeishuHeaderIcon where
  token : String
deriving DecidableEq

/-- Card plain-text/markdown element (Go struct `feishuPlainText`). -/
structure FeishuPlainText where
  tag : String
  content : String
deriving DecidableEq

/-- Card header (Go struct `feishuHeader`). -/
structure FeishuHeader where
  title : FeishuPlainText
  template : String
  icon : Option FeishuHeaderIcon
deriving DecidableEq

/-- One element of the card's flat `elements` list: markdown text
(`feishuPlainText`), image combination (`feishuImageList`), the anonymous
`{tag:"hr"}` divider, or a row of `feishuMention` values (appended as a
single element, since the Go code appends the sub-slice itself). -/
inductive CardElement where
  | plainText (tag content : String)
  | imageList (tag combinationMode : String) (imageKeys : List String)
  | divider (tag : String)
  | mentionRow (mentions : List (String × String))
deriving DecidableEq

/-- The card document, structurally (`feishuPost` wrapping `feishuCard`):
top-level `msg_type`, header, optional card link, and the element list. -/
structure CardPayload where
  msgType : String
  header : FeishuHeader
  cardLink : Option String
  elements : List CardElement
deriving DecidableEq

/-- Header construction of the card builders (part_002 lines 226-244,
part_001 lines 560-578): "default" template and no icon, overridden to
red/warning for a firing batch and green/resolve for a resolved one. -/
def buildHeader (status : AlertStatus) (title : String) : FeishuHeader :=
  let header : FeishuHeader := ⟨⟨"plain_text", title⟩, "default", none⟩
  if status = AlertStatus.firing then
    { header with template := "red", icon := some ⟨"warning_outlined"⟩ }
  else if status = AlertStatus.resolved then
    { header with template := "green", icon := some ⟨"resolve_outlined"⟩ }
  else header

/-- The card element list before the mention step (part_002 lines 255-284):
a markdown block if the message is non-empty, then an image-combination
block if any upload succeeded (failures skipped, successes in iteration
order). -/
def preMentionContents (env : SDKEnv) (message : String) : List CardElement :=
  let contents1 : List CardElement :=
    if message.length > 0 then [CardElement.plainText ("markdown") message] else []
  let imageContents := env.storedImages.filterMap (fun img =>
    match env.upload img.path with
    | Except.error _ => none
    | Except.ok key => some key)
  if imageContents.length > 0 then
    contents1 ++ [CardElement.imageList ("img_combination") ("bisect") imageContents]
  else contents1

/-- Embeds the SDK card-format `Notifier.buildBody` (part_002 lines
210-331): header styled by the batch status; the card link is commented out
in this variant; elements are the pre-mention contents, then — when the
mention list is non-empty — an `hr` divider (only if elements already
exist), then, only if the user lookup succeeds, one element holding the
`at` mention row.  A failed lookup is swallowed.  Serialization of these
fixed-shape values cannot fail, so the result is always `Except.ok`. -/
def buildBodySDK (env : SDKEnv) (alerts : List AlertStatus)
    (title message : String) : Except Err CardPayload :=
  let alertStatus := batchStatus alerts
  let header := buildHeader alertStatus title
  let contents := preMentionContents env message
  let contents3 :=
    if env.mentionUsers.length > 0 then
      let afterHr :=
        if contents.length > 0 then contents ++ [CardElement.divider ("hr")]
        else contents
      match (getUserIDs env env.mentionUsers).1 with
      | Except.error _ => afterHr
      | Except.ok users =>
        afterHr ++ [CardElement.mentionRow (users.map (fun u => ("at", u)))]
    else contents
  Except.ok { msgType := env.msgType, header := header, cardLink := none,
              elements := contents3 }

/-- Recognizes a mention element of the card element list. -/
def CardElement.isMention : CardElement → Bool
  | CardElement.mentionRow _ => true
  | _ => false

/-! ## Theorems for the claims -/

/-- C1: for every alert batch, if `buildBody` returns an error then `Notify`
returns `(false, that error)` and never invokes the webhook sender; if
`buildBody` succeeds but the webhook send errors, `Notify` returns
`(false, that error)`; if both succeed, `Notify` returns `(true, nil)`. -/
theorem notify_error_propagation (b : Except Err String)
    (send : String → Except Err Unit) :
    (∀ e, b = Except.error e → Notify b send = ((false, some e), [])) ∧
    (∀ s e, b = Except.ok s → send s = Except.error e →
      Notify b send = ((false, some e), [NotifyEffect.callSender s])) ∧
    (∀ s, b = Except.ok s → send s = Except.ok () →
      Notify b send = ((true, none), [NotifyEffect.callSender s])) := by
  refine ⟨?_, ?_, ?_⟩ <;> intros <;> subst_vars <;> simp [Notify, *]

/-- Witness for C1 at concrete build and send outcomes. -/
theorem notify_error_propagation_witness :
    Notify (Except.error ⟨"boom"⟩) (fun _ => Except.ok ()) =
      ((false, some ⟨"boom"⟩), []) ∧
    Notify (Except.ok ("body")) (fun _ => Except.error ⟨"net"⟩) =
      ((false, some ⟨"net"⟩), [NotifyEffect.callSender ("body")]) ∧
    Notify (Except.ok ("body")) (fun _ => Except.ok ()) =
      ((true, none), [NotifyEffect.callSender ("body")]) :=
  ⟨(notify_error_propagation _ _).1 ⟨"boom"⟩ rfl,
   (notify_error_propagation _ _).2.1 ("body") ⟨"net"⟩ rfl rfl,
   (notify_error_propagation _ _).2.2 ("body") rfl rfl⟩

/-- C2: for every cache state, a cached unexpired token is returned with
zero auth-endpoint calls; on an empty or expired cache exactly one
auth-endpoint call is made and, when it succeeds, the returned token is
stored with expiry `now + expire` seconds and returned. -/
theorem token_cache_spec (env : TokenEnv) (st : CacheState) :
    (∀ tok, cacheGet st env.now = some tok →
      getTenantAccessToken env st = (Except.ok tok, st, 0)) ∧
    (cacheGet st env.now = none →
      (getTenantAccessToken env st).2.2 = 1 ∧
      ∀ t, env.authResp = Except.ok t →
        getTenantAccessToken env st =
          (Except.ok t.accessToken, ⟨some (t.accessToken, env.now + t.expire)⟩, 1)) := by
  constructor
  · intro tok h
    simp [getTenantAccessToken, h]
  · intro h
    constructor
    · cases h2 : env.authResp <;> simp [getTenantAccessToken, h, h2]
    · intro t ht
      simp [getTenantAccessToken, h, ht]

/-- Witness for C2: a cache hit returns the cached token with no call; a
cache miss calls once and stores the response token with expiry now +
expire. -/
theorem token_cache_spec_witness :
    getTenantAccessToken ⟨5, Except.ok ⟨0, 7200, "ok", "tk"⟩⟩ ⟨some ("cached", 10)⟩ =
      (Except.ok ("cached"), ⟨some ("cached", 10)⟩, 0) ∧
    getTenantAccessToken ⟨5, Except.ok ⟨0, 7200, "ok", "tk"⟩⟩ ⟨none⟩ =
      (Except.ok ("tk"), ⟨some ("tk", 5 + 7200)⟩, 1) :=
  ⟨(token_cache_spec _ _).1 ("cached") (by decide),
   ((token_cache_spec _ _).2 (by decide)).2 _ rfl⟩

/-- C3 (code bug): the decrypt-variant loader validates the decrypted app
ID but returns the raw settings, so it can succeed returning a `Config`
whose app ID field is empty — here the raw app ID is `""` while the decrypt
function resolves it to a non-empty secret. -/
theorem newConfig_success_with_empty_appID :
    ∃ cfg,
      NewConfig
          (Except.ok ⟨"https://example.com/hook", "", "raw-secret", "", "", "", []⟩)
          (fun key fallback =>
            if key = "appId" ∧ fallback = "" then "decrypted-id" else fallback) =
        Except.ok cfg ∧
      cfg.appID = "" ∧ cfg.url ≠ "" ∧ cfg.appSecret ≠ "" :=
  ⟨_, rfl, rfl, by decide, by decide⟩

/-- C4 (code bug): `SendResolved` of the first part_001 variant is a double
negation `!!`, returning the disable-resolve-message flag itself, while
every other variant returns its negation. -/
theorem sendResolved_double_negation :
    SendResolvedDoubleNeg true = true ∧
    SendResolved true = false ∧
    SendResolvedCard true = false ∧
    SendResolvedSDK true = false := by
  decide

/-- C5 counterexample: a response with HTTP status 500 (non-2xx) whose body
parses as an error document makes `uploadImage` return `Except.ok ""` — no
error — because the status code is never inspected. -/
theorem uploadImage_ok_on_non2xx :
    ¬ (200 ≤ 500 ∧ 500 < 300) ∧
    uploadImage
        ⟨Except.ok ("tok"), Except.ok (), Except.ok (),
         Except.ok ⟨500, some ⟨99991663, "token invalid", ""⟩⟩⟩ =
      Except.ok ("") := by
  constructor
  · decide
  · rfl

/-- C5 amended: when the preparatory steps succeed and a response arrives,
`uploadImage` returns an error exactly when the body is malformed
(non-JSON-parseable); the HTTP status is ignored, so any parseable body —
whatever the status — yields the image key it carries. -/
theorem uploadImage_parse_spec (env : UploadEnv) (tk : String)
    (resp : ImageResponse)
    (htok : env.token = Except.ok tk) (hfile : env.fileOpen = Except.ok ())
    (hmp : env.multipart = Except.ok ())
    (hresp : env.response = Except.ok resp) :
    (resp.parsed = none →
      uploadImage env = Except.error ⟨"json unmarshal failed"⟩) ∧
    (∀ info, resp.parsed = some info →
      uploadImage env = Except.ok info.imageKey) := by
  constructor <;> intros <;> simp [uploadImage, htok, hfile, hmp, hresp, *]

/-- Witness for the amended C5: a malformed body errors; a parseable body
with status 500 yields its image key. -/
theorem uploadImage_parse_spec_witness :
    uploadImage ⟨Except.ok ("t"), Except.ok (), Except.ok (),
        Except.ok ⟨200, none⟩⟩ =
      Except.error ⟨"json unmarshal failed"⟩ ∧
    uploadImage ⟨Except.ok ("t"), Except.ok (), Except.ok (),
        Except.ok ⟨500, some ⟨0, "ok", "imgkey"⟩⟩⟩ =
      Except.ok ("imgkey") :=
  ⟨(uploadImage_parse_spec _ _ _ rfl rfl rfl rfl).1 rfl,
   (uploadImage_parse_spec _ _ _ rfl rfl rfl rfl).2 _ rfl⟩

/-- C6: whenever the input identifier list contains the literal "all",
`getUserIDs` returns exactly `["all"]` and performs zero lookup calls,
whatever the other entries are. -/
theorem getUserIDs_all_shortcircuit (env : SDKEnv) (emails : List String)
    (h : ("all") ∈ emails) :
    getUserIDs env emails = (Except.ok ["all"], 0) := by
  simp [getUserIDs, h]

/-- Witness for C6: "all" among other identifiers, with a lookup oracle
that would fail if consulted. -/
theorem getUserIDs_all_shortcircuit_witness :
    getUserIDs
        ⟨fun _ => Except.error ⟨"no upload"⟩, [],
         fun _ => Except.error ⟨"no lookup"⟩, [], "card"⟩
        ["a@b.c", "all", "d@e.f"] =
      (Except.ok ["all"], 0) :=
  getUserIDs_all_shortcircuit _ _ (by decide)

/-- C7: in the post-format builder, with no uploaded images, no mentions
and no rule-URL link, a non-empty message yields msg_type "post", the given
title, and exactly one content row holding the single text block
`{tag:"text", text:M}`. -/
theorem buildBody_post_simple (env : PostEnv) (title msg : String)
    (himg : imageContentsOf env [] = [])
    (hmsg : msg.length > 0)
    (hurl : env.ruleURL = "") :
    buildBody env title msg =
      Except.ok
        { msgType := "post", title := title,
          content := [[PostBlock.text ("text") msg false]] } := by
  simp [buildBody, himg, hurl, hmsg]

/-- Witness for C7 at title "T", message "M", no stored images, empty rule
URL. -/
theorem buildBody_post_simple_witness :
    buildBody ⟨fun _ => Except.error ⟨"e"⟩, fun _ => [], ""⟩ ("T") ("M") =
      Except.ok
        { msgType := "post", title := "T",
          content := [[PostBlock.text ("text") ("M") false]] } :=
  buildBody_post_simple _ _ _ rfl (by decide) rfl

/-- C8: in the card-format builder, a firing batch gives header template
"red" with icon token "warning_outlined"; a resolved batch gives "green"
with "resolve_outlined". -/
theorem buildBodySDK_header_status (env : SDKEnv) (alerts : List AlertStatus)
    (title message : String) (p : CardPayload)
    (hp : buildBodySDK env alerts title message = Except.ok p) :
    (batchStatus alerts = AlertStatus.firing →
      p.header.template = "red" ∧
      p.header.icon = some ⟨"warning_outlined"⟩) ∧
    (batchStatus alerts = AlertStatus.resolved →
      p.header.template = "green" ∧
      p.header.icon = some ⟨"resolve_outlined"⟩) := by
  simp only [buildBodySDK, Except.ok.injEq] at hp
  subst hp
  constructor <;> intro h <;> simp [buildHeader, h]

/-- Witness for C8: a one-alert firing batch gives the red/warning header,
a one-alert resolved batch gives the green/resolve header. -/
theorem buildBodySDK_header_status_witness :
    ((⟨"interactive", ⟨⟨"plain_text", "T"⟩, "red", some ⟨"warning_outlined"⟩⟩,
        none, [CardElement.plainText ("markdown") ("M")]⟩ :
        CardPayload).header.template = "red" ∧
      (⟨"interactive", ⟨⟨"plain_text", "T"⟩, "red", some ⟨"warning_outlined"⟩⟩,
        none, [CardElement.plainText ("markdown") ("M")]⟩ :
        CardPayload).header.icon = some ⟨"warning_outlined"⟩) ∧
    ((⟨"interactive", ⟨⟨"plain_text", "T"⟩, "green", some ⟨"resolve_outlined"⟩⟩,
        none, [CardElement.plainText ("markdown") ("M")]⟩ :
        CardPayload).header.template = "green" ∧
      (⟨"interactive", ⟨⟨"plain_text", "T"⟩, "green", some ⟨"resolve_outlined"⟩⟩,
        none, [CardElement.plainText ("markdown") ("M")]⟩ :
        CardPayload).header.icon = some ⟨"resolve_outlined"⟩) :=
  ⟨(buildBodySDK_header_status
      ⟨fun _ => Except.error ⟨"e"⟩, [], fun _ => Except.error ⟨"e"⟩, [],
       "interactive"⟩
      [AlertStatus.firing] ("T") ("M") _ rfl).1 (by decide),
   (buildBodySDK_header_status
      ⟨fun _ => Except.error ⟨"e"⟩, [], fun _ => Except.error ⟨"e"⟩, [],
       "interactive"⟩
      [AlertStatus.resolved] ("T") ("M") _ rfl).2 (by decide)⟩

/-- C9 (code bug): the post-format builder never uploads or embeds any
image, because the `images.WithStoredImages` call at feishu.go 241 omits
the variadic alert batch (which `buildBody` does not even receive), so the
per-image callback never runs.  Concretely: a batch holding three stored
images, of which the first and third would upload successfully, would give
the iteration the two image blocks — yet the built payload contains no
image row at all. -/
theorem buildBody_post_never_uploads :
    imageContentsOf
        ⟨fun p =>
            if p = "a.png" then Except.ok ("k1")
            else if p = "c.png" then Except.ok ("k3")
            else Except.error ⟨"upload failed"⟩,
          fun _ => [⟨"a.png", "u1"⟩, ⟨"b.png", "u2"⟩, ⟨"c.png", "u3"⟩], ""⟩
        [⟨"alert1"⟩] =
      [PostBlock.img ("img") ("k1"), PostBlock.img ("img") ("k3")] ∧
    buildBody
        ⟨fun p =>
            if p = "a.png" then Except.ok ("k1")
            else if p = "c.png" then Except.ok ("k3")
            else Except.error ⟨"upload failed"⟩,
          fun _ => [⟨"a.png", "u1"⟩, ⟨"b.png", "u2"⟩, ⟨"c.png", "u3"⟩], ""⟩
        ("T") ("M") =
      Except.ok
        ⟨"post", "T", [[PostBlock.text ("text") ("M") false]]⟩ := by
  constructor
  · rfl
  · rfl

/-- Every element produced before the mention step of the SDK card builder
is a markdown block or an image-combination block — never a mention row. -/
theorem mem_preMentionContents_not_mention (env : SDKEnv) (message : String)
    (el : CardElement) (h : el ∈ preMentionContents env message) :
    el.isMention = false := by
  have hsplit : ∀ (c : Prop) (inst : Decidable c) (a b : List CardElement)
      (x : CardElement), x ∈ (if c then a else b) → x ∈ a ∨ x ∈ b := by
    intro c inst a b x hx
    split at hx
    · exact Or.inl hx
    · exact Or.inr hx
  simp only [preMentionContents] at h
  rcases hsplit _ _ _ _ _ h with h | h
  · rcases List.mem_append.mp h with h | h
    · rcases hsplit _ _ _ _ _ h with h | h
      · simp at h
        subst h
        rfl
      · simp at h
    · simp at h
      subst h
      rfl
  · rcases hsplit _ _ _ _ _ h with h | h
    · simp at h
      subst h
      rfl
    · simp at h

/-- C10: in the SDK card builder, when the mention list is non-empty and
elements already exist, the "hr" divider is appended before the user-ID
lookup; if the lookup then fails, the element list ends with that divider
and contains no mention block. -/
theorem buildBodySDK_divider_before_mentions (env : SDKEnv)
    (alerts : List AlertStatus) (title message : String) (e : Err)
    (hm : env.mentionUsers ≠ [])
    (hc : preMentionContents env message ≠ [])
    (hl : (getUserIDs env env.mentionUsers).1 = Except.error e) :
    ∃ p, buildBodySDK env alerts title message = Except.ok p ∧
      p.elements = preMentionContents env message ++ [CardElement.divider ("hr")] ∧
      ∀ el ∈ p.elements, el.isMention = false := by
  have hm1 : 0 < env.mentionUsers.length := List.length_pos.mpr hm
  have hc1 : 0 < (preMentionContents env message).length := List.length_pos.mpr hc
  refine ⟨⟨env.msgType, buildHeader (batchStatus alerts) title, none,
      preMentionContents env message ++ [CardElement.divider ("hr")]⟩, ?_, rfl, ?_⟩
  · simp [buildBodySDK, hm1, hc1, hl]
  · intro el hel
    rcases List.mem_append.mp hel with h1 | h1
    · exact mem_preMentionContents_not_mention env message el h1
    · simp at h1
      subst h1
      rfl

/-- Witness for C10: one mention user, failing lookup, non-empty message;
the elements are the markdown block followed by the divider, with no
mention block. -/
theorem buildBodySDK_divider_before_mentions_witness :
    ∃ p, buildBodySDK
        ⟨fun _ => Except.error ⟨"e"⟩, [],
         fun _ => Except.error ⟨"lookup failed"⟩, ["a@b.c"], "interactive"⟩
        [AlertStatus.firing] ("T") ("M") = Except.ok p ∧
      p.elements = [CardElement.plainText ("markdown") ("M"),
        CardElement.divider ("hr")] ∧
      ∀ el ∈ p.elements, el.isMention = false := by
  have h := buildBodySDK_divider_before_mentions
    ⟨fun _ => Except.error ⟨"e"⟩, [],
     fun _ => Except.error ⟨"lookup failed"⟩, ["a@b.c"], "interactive"⟩
    [AlertStatus.firing] ("T") ("M") ⟨"lookup failed"⟩
    (by decide) (by decide) rfl
  simpa [preMentionContents] using h

end Feishu
